import Mathlib

/-!
Shallow embedding of `src/services/viral_image_extractor.py` (class
`ViralImageExtractor`) and verification of its specification claims.

Pure helpers of the class become Lean functions; the effectful parts
(HTTP fetches, Selenium collection, file system) are modelled by passing
their observable outcomes explicitly (an HTTP response record, oracle
functions for the per-source collectors, a timestamp argument).
-/

namespace ViralImageExtractor

/-! ## String helpers

Python substring containment (`pat in s`) over characters. -/

def listStartsWith : List Char → List Char → Bool
  | _, [] => true
  | [], _ :: _ => false
  | c :: cs, p :: ps => c == p && listStartsWith cs ps

def listHasSub : List Char → List Char → Bool
  | [], pat => pat.isEmpty
  | c :: cs, pat => listStartsWith (c :: cs) pat || listHasSub cs pat

def strContains (s pat : String) : Bool :=
  listHasSub s.toList pat.toList

/-! ## `_is_valid_image_url` (source lines 727-760) -/

def invalid_patterns : List String :=
  ["data:image", "base64", "svg", "icon", "logo", "avatar", "profile"]

def valid_patterns : List String :=
  [".jpg", ".jpeg", ".png", ".webp", "scontent", "fbcdn", "instagram", "youtube"]

def _is_valid_image_url (url : String) : Bool :=
  if url = "" ∨ url.length < 10 then false
  else if invalid_patterns.any (fun p => strContains url.toLower p) then false
  else valid_patterns.any (fun p => strContains url.toLower p)

/-! ## `_extract_hashtags_from_text` (source lines 821-827)

`re.findall(r'#\w+', text)[:10]`: left-to-right non-overlapping matches of
a `#` followed by one or more word characters (ASCII letters, digits,
underscore in this embedding), capped at 10.  The scanner is written with
a fuel argument equal to the remaining character count so that it is
structurally recursive and evaluates by kernel reduction. -/

def isWordChar (c : Char) : Bool :=
  c.isAlphanum || c == '_'

def findHashtagsAux : Nat → List Char → List String
  | 0, _ => []
  | _ + 1, [] => []
  | fuel + 1, c :: rest =>
    if c == '#' then
      let w := rest.takeWhile isWordChar
      if w.isEmpty then findHashtagsAux fuel rest
      else ("#" ++ String.mk w) :: findHashtagsAux fuel (rest.drop w.length)
    else findHashtagsAux fuel rest

def findHashtags (l : List Char) : List String :=
  findHashtagsAux l.length l

def _extract_hashtags_from_text (text : String) : List String :=
  (findHashtags text.toList).take 10

/-! ## `_generate_realistic_metrics` (source lines 835-854) -/

def base_multiplier (category : String) : Nat :=
  if category = "news" then 1000
  else if category = "commercial" then 500
  else if category = "instagram" then 2000
  else if category = "facebook" then 1500
  else if category = "youtube" then 10000
  else 1000

structure RealisticMetrics where
  likes : Nat
  comments : Nat
  shares : Nat
  views : Nat
  deriving DecidableEq

def _generate_realistic_metrics (category : String) (index : Nat) : RealisticMetrics :=
  let multiplier := base_multiplier category
  { likes := multiplier + index * 100
    comments := multiplier / 10 + index * 10
    shares := multiplier / 20 + index * 5
    views := multiplier * 5 + index * 500 }

/-! ## `_calculate_image_virality_score` (source lines 856-889)

Engagement metrics are a finite mapping from metric name to count,
modelled as `String → Option Nat`.  The Python float arithmetic is
idealised over the reals; `count ** 0.5` on a non-negative count is
`Real.sqrt`. -/

def Metrics := String → Option Nat

noncomputable def platformWeights (platform : String) : List (String × ℝ) :=
  if platform = "instagram" then [("likes", 0.3), ("comments", 0.4), ("shares", 0.3)]
  else if platform = "facebook" then [("likes", 0.25), ("comments", 0.35), ("shares", 0.4)]
  else if platform = "youtube" then [("views", 0.4), ("likes", 0.3), ("comments", 0.3)]
  else if platform = "news" then [("views", 0.6), ("shares", 0.4)]
  else if platform = "commercial" then [("views", 0.5), ("likes", 0.3), ("shares", 0.2)]
  else [("likes", 0.3), ("comments", 0.4), ("shares", 0.3)]

noncomputable def normalizedValue (count : Nat) : ℝ :=
  min 100 (Real.sqrt ((count : ℝ) / 100))

noncomputable def scoreStep (metrics : Metrics) (sw : ℝ × ℝ) (nw : String × ℝ) : ℝ × ℝ :=
  match metrics nw.1 with
  | some c => (sw.1 + normalizedValue c * nw.2, sw.2 + nw.2)
  | none => sw

noncomputable def _calculate_image_virality_score (metrics : Metrics) (platform : String) : ℝ :=
  let acc := (platformWeights platform).foldl (scoreStep metrics) (0, 0)
  let score := if acc.2 > 0 then acc.1 / acc.2 else acc.1
  min 100 (max 0 score)

/-! ## The `ViralImage` dataclass (source lines 31-47) -/

structure ViralImage where
  platform : String
  source_url : String
  image_url : String
  local_path : String
  title : String
  description : String
  author : String
  engagement_metrics : Metrics
  hashtags : List String
  content_type : String
  virality_score : ℝ
  extraction_timestamp : String
  image_size : Nat × Nat
  file_size : Nat

/-! ## `_download_image` (source lines 663-706) and `_get_image_info` (708-725)

The HTTP response is modelled by its observable data: status code,
content-type header, whether/how its bytes decode as an image
(`decodedSize = none` for undecodable bytes), and byte count.  The file
system effect is modelled by the pair (returned path, whether a stored
file remains on disk afterwards). -/

structure HttpResponse where
  status : Nat
  contentType : String
  decodedSize : Option (Nat × Nat)
  bodySize : Nat

def imageExt (contentType : String) : String :=
  if strContains contentType "jpeg" || strContains contentType "jpg" then "jpg"
  else if strContains contentType "png" then "png"
  else if strContains contentType "webp" then "webp"
  else "jpg"

structure DownloadOutcome where
  returnedPath : Option String
  fileRemains : Bool
  deriving DecidableEq

def _download_image (resp : HttpResponse) (platform : String) (index ts : Nat) :
    DownloadOutcome :=
  if resp.status = 200 then
    let filename := platform ++ "_viral_" ++ toString index ++ "_" ++ toString ts
      ++ "." ++ imageExt resp.contentType
    let local_path := platform ++ "/" ++ filename
    match resp.decodedSize with
    | some wh =>
        if 200 ≤ wh.1 ∧ 200 ≤ wh.2 then ⟨some local_path, true⟩
        else ⟨none, false⟩
    | none => ⟨none, false⟩
  else ⟨none, false⟩

def _get_image_info (decodedSize : Option (Nat × Nat)) (bytes : Nat) :
    (Nat × Nat) × Nat :=
  match decodedSize with
  | some wh => (wh, bytes)
  | none => ((0, 0), 0)

/-! ## `_download_youtube_thumbnail` (source lines 487-546)

Tries the three thumbnail qualities in order; the first response with
status 200 is written to disk and turned into a `ViralImage` record
without any dimension or decodability check (`_get_image_info` merely
reports `(0, 0)` on failure).  The scorer is called on the raw
`video_data` dict, whose numeric keys are views/likes/comments. -/

structure VideoData where
  id : String
  url : String
  title : String
  views : Nat
  likes : Nat
  comments : Nat
  thumbnail_url : String

def videoDataLookup (v : VideoData) : Metrics := fun k =>
  if k = "views" then some v.views
  else if k = "likes" then some v.likes
  else if k = "comments" then some v.comments
  else none

def ytEngagementMetrics (v : VideoData) : Metrics := fun k =>
  if k = "views" then some v.views
  else if k = "likes" then some v.likes
  else if k = "comments" then some v.comments
  else if k = "shares" then some (v.views / 50)
  else none

def thumbnailUrls (videoId : String) : List String :=
  ["https://img.youtube.com/vi/" ++ videoId ++ "/maxresdefault.jpg",
   "https://img.youtube.com/vi/" ++ videoId ++ "/hqdefault.jpg",
   "https://img.youtube.com/vi/" ++ videoId ++ "/mqdefault.jpg"]

noncomputable def mkYoutubeViralImage (v : VideoData) (url : String)
    (resp : HttpResponse) (ts : Nat) : ViralImage :=
  let image_info := _get_image_info resp.decodedSize resp.bodySize
  { platform := "YouTube"
    source_url := v.url
    image_url := url
    local_path := "youtube/youtube_thumbnail_" ++ v.id ++ "_" ++ toString ts ++ ".jpg"
    title := v.title
    description := "Thumbnail de vídeo viral com " ++ toString v.views ++ " visualizações"
    author := "Canal YouTube"
    engagement_metrics := ytEngagementMetrics v
    hashtags := _extract_hashtags_from_text v.title
    content_type := "thumbnail"
    virality_score := _calculate_image_virality_score (videoDataLookup v) "youtube"
    extraction_timestamp := toString ts
    image_size := image_info.1
    file_size := image_info.2 }

noncomputable def tryThumbnailUrls (fetch : String → HttpResponse) (v : VideoData)
    (ts : Nat) : List String → Option ViralImage
  | [] => none
  | u :: rest =>
    if (fetch u).status = 200 then some (mkYoutubeViralImage v u (fetch u) ts)
    else tryThumbnailUrls fetch v ts rest

noncomputable def _download_youtube_thumbnail (fetch : String → HttpResponse)
    (v : VideoData) (ts : Nat) : Option ViralImage :=
  tryThumbnailUrls fetch v ts (thumbnailUrls v.id)

/-! ## Orchestration: `extract_viral_images` (source lines 77-115),
`extract_additional_viral_content` (190-209),
`get_extracted_images_summary` (929-956)

The per-source collectors are Selenium/HTTP-driven; their observable
outcome — the list of successfully materialized records each one
contributes, as a function of the requested quota for the fallback
sources — is passed in as an oracle. -/

def min_images_target : Nat := 20

structure Collectors where
  instagram : List ViralImage
  facebook : List ViralImage
  youtube : List ViralImage
  news : Nat → List ViralImage
  commercial : Nat → List ViralImage

def extract_additional_viral_content (c : Collectors) : List ViralImage :=
  c.news 8 ++ c.commercial 6

def primaryImages (c : Collectors) : List ViralImage :=
  c.instagram ++ c.facebook ++ c.youtube

def workingSet (c : Collectors) : List ViralImage :=
  let all_images := primaryImages c
  if all_images.length < min_images_target then
    all_images ++ extract_additional_viral_content c
  else all_images

noncomputable def rankImages (l : List ViralImage) : List ViralImage :=
  l.mergeSort (fun a b => decide (b.virality_score ≤ a.virality_score))

def truncateImages (l : List ViralImage) : List ViralImage :=
  if min_images_target ≤ l.length then l.take min_images_target else l

noncomputable def extract_viral_images (c : Collectors) : List ViralImage :=
  truncateImages (rankImages (workingSet c))

def summaryStatus (extracted : List ViralImage) : String :=
  if extracted.length = 0 then "no_images"
  else if min_images_target ≤ extracted.length then "success"
  else "partial"

/-! ## Shared helper lemmas -/

/-- Folding the scoring step over any weight list with an empty metrics
mapping leaves the accumulator unchanged: no metric is ever found. -/
theorem foldl_scoreStep_empty (l : List (String × ℝ)) (p : ℝ × ℝ) :
    l.foldl (scoreStep (fun _ => none)) p = p := by
  induction l generalizing p with
  | nil => rfl
  | cons hd tl ih => simpa [scoreStep] using ih p

/-- With an empty metrics mapping the scorer accumulates nothing, skips the
renormalizing division (`total_weight = 0`), and the final clamp of `0.0`
is `0.0`, for every platform. -/
theorem score_empty_eq (platform : String) :
    _calculate_image_virality_score (fun _ => none) platform = 0 := by
  unfold _calculate_image_virality_score
  rw [foldl_scoreStep_empty]
  norm_num

/-- A concrete test image used to instantiate the orchestrator-level
theorems; only its `virality_score` matters to ranking and truncation. -/
noncomputable def mkTestImage (s : ℝ) (n : String) : ViralImage :=
  { platform := "Instagram"
    source_url := "https://example.com/" ++ n
    image_url := "https://example.com/" ++ n ++ ".jpg"
    local_path := "instagram/" ++ n ++ ".jpg"
    title := n
    description := ""
    author := "@user"
    engagement_metrics := fun _ => none
    hashtags := []
    content_type := "image"
    virality_score := s
    extraction_timestamp := "t"
    image_size := (300, 300)
    file_size := 1000 }

/-! ## Claim theorems -/

/-- C1: for every engagement-metrics mapping and every category string the
virality scorer returns a value in the closed interval `[0, 100]`: each
present metric is compressed via `min 100 (sqrt (count / 100))`, weighted,
the sum renormalized by the total applied weight, and the final result is
clamped to `[0, 100]`, so the bound holds for arbitrarily large counts. -/
theorem score_in_unit_interval (metrics : Metrics) (platform : String) :
    0 ≤ _calculate_image_virality_score metrics platform ∧
    _calculate_image_virality_score metrics platform ≤ 100 := by
  unfold _calculate_image_virality_score
  exact ⟨le_min (by norm_num) (le_max_left _ _), min_le_left _ _⟩

/-- C2 (amended): with an empty engagement-metrics mapping the scorer does
not fail — it totals no weight, skips the division, and returns `0.0`
(the clamp of the empty sum) for every platform; it does not return the
`50.0` exception fallback. -/
theorem score_empty_metrics (platform : String) :
    _calculate_image_virality_score (fun _ => none) platform = 0 :=
  score_empty_eq platform

/-- C2 counterexample: on the empty metrics mapping the scorer returns
`0.0`, not the claimed neutral default `50.0`. -/
theorem score_empty_metrics_not_fifty :
    _calculate_image_virality_score (fun _ => none) "instagram" = 0 ∧
    (0 : ℝ) ≠ 50 :=
  ⟨score_empty_eq "instagram", by norm_num⟩

/-- C7 counterexample: hashtag extraction does not remove duplicates — the
text `"Confira #promo e #promo agora"` yields `["#promo", "#promo"]`, while
the claim (duplicates removed) would require `["#promo"]`. -/
theorem hashtags_duplicates_kept :
    _extract_hashtags_from_text "Confira #promo e #promo agora" =
      ["#promo", "#promo"] ∧
    ["#promo", "#promo"] ≠ ["#promo"] := by
  exact ⟨by decide, by decide⟩

/-- C7 (amended): hashtag extraction returns the `#`-prefixed word tokens
of the text in first-seen order, duplicates retained, capped at 10
entries; the input `"Confira #promo #Brasil2024 agora!"` yields exactly
`["#promo", "#Brasil2024"]`. -/
theorem hashtags_order_and_cap :
    _extract_hashtags_from_text "Confira #promo #Brasil2024 agora!" =
      ["#promo", "#Brasil2024"] ∧
    ∀ text : String, (_extract_hashtags_from_text text).length ≤ 10 := by
  refine ⟨by decide, fun text => ?_⟩
  unfold _extract_hashtags_from_text
  exact List.length_take_le 10 (findHashtags text.toList)

/-- C9: the fallback metric synthesizer is a pure function of
`(category, index)` whose fields are the per-category base
(news 1000, commercial 500, instagram 2000, facebook 1500, youtube 10000,
default 1000) plus a linear term in the ordinal index, hence each field is
strictly monotone in the index within a source batch. -/
theorem realistic_metrics_linear (category : String) (i j : Nat) :
    _generate_realistic_metrics category i =
      { likes := base_multiplier category + i * 100
        comments := base_multiplier category / 10 + i * 10
        shares := base_multiplier category / 20 + i * 5
        views := base_multiplier category * 5 + i * 500 } ∧
    (i < j →
      (_generate_realistic_metrics category i).likes <
        (_generate_realistic_metrics category j).likes ∧
      (_generate_realistic_metrics category i).comments <
        (_generate_realistic_metrics category j).comments ∧
      (_generate_realistic_metrics category i).shares <
        (_generate_realistic_metrics category j).shares ∧
      (_generate_realistic_metrics category i).views <
        (_generate_realistic_metrics category j).views) ∧
    base_multiplier "news" = 1000 ∧ base_multiplier "commercial" = 500 ∧
    base_multiplier "instagram" = 2000 ∧ base_multiplier "facebook" = 1500 ∧
    base_multiplier "youtube" = 10000 ∧
    (category ∉ ["news", "commercial", "instagram", "facebook", "youtube"] →
      base_multiplier category = 1000) := by
  refine ⟨rfl, fun hij => ?_, rfl, rfl, rfl, rfl, rfl, fun hcat => ?_⟩
  · simp only [_generate_realistic_metrics]
    omega
  · simp only [List.mem_cons, List.mem_singleton, not_or] at hcat
    obtain ⟨h1, h2, h3, h4, h5, -⟩ := hcat
    simp [base_multiplier, h1, h2, h3, h4, h5]

/-- C9 witness: concrete instances discharging the hypotheses of
`realistic_metrics_linear`. -/
theorem realistic_metrics_linear_witness :
    ((0 : Nat) < 1 ∧
      (_generate_realistic_metrics "news" 0).likes <
        (_generate_realistic_metrics "news" 1).likes) ∧
    ("blog" ∉ ["news", "commercial", "instagram", "facebook", "youtube"] ∧
      base_multiplier "blog" = 1000) :=
  ⟨⟨by decide, ((realistic_metrics_linear "news" 0 1).2.1 (by decide)).1⟩,
   ⟨by decide, (realistic_metrics_linear "blog" 0 0).2.2.2.2.2.2.2 (by decide)⟩⟩

/-- C4: the ranking step is a stable descending sort of the working set by
virality score — the output is sorted non-increasingly, is a permutation
of the input, and any two records with equal scores keep their original
relative order. -/
theorem rank_sorted_stable (l : List ViralImage) :
    (rankImages l).Pairwise
      (fun a b => b.virality_score ≤ a.virality_score) ∧
    List.Perm (rankImages l) l ∧
    (∀ a b : ViralImage, a.virality_score = b.virality_score →
      List.Sublist [a, b] l → List.Sublist [a, b] (rankImages l)) := by
  have trans : ∀ a b c : ViralImage,
      decide (b.virality_score ≤ a.virality_score) = true →
      decide (c.virality_score ≤ b.virality_score) = true →
      decide (c.virality_score ≤ a.virality_score) = true := by
    intro a b c hab hbc
    simp only [decide_eq_true_eq] at hab hbc ⊢
    exact le_trans hbc hab
  have total : ∀ a b : ViralImage,
      (decide (b.virality_score ≤ a.virality_score) ||
        decide (a.virality_score ≤ b.virality_score)) = true := by
    intro a b
    simp only [Bool.or_eq_true, decide_eq_true_eq]
    exact le_total _ _
  refine ⟨?_, List.mergeSort_perm l _, fun a b hab hsub => ?_⟩
  · exact (List.sorted_mergeSort trans total l).imp
      (fun hxy => of_decide_eq_true hxy)
  · exact List.pair_sublist_mergeSort trans total
      (by simp [hab]) hsub

/-- C4 witness: two records with equal scores keep their order through
`rankImages`. -/
theorem rank_sorted_stable_witness :
    (mkTestImage 90 "a").virality_score = (mkTestImage 90 "b").virality_score ∧
    List.Sublist [mkTestImage 90 "a", mkTestImage 90 "b"]
      [mkTestImage 90 "a", mkTestImage 90 "b"] ∧
    List.Sublist [mkTestImage 90 "a", mkTestImage 90 "b"]
      (rankImages [mkTestImage 90 "a", mkTestImage 90 "b"]) :=
  ⟨rfl, List.Sublist.refl _,
    (rank_sorted_stable [mkTestImage 90 "a", mkTestImage 90 "b"]).2.2
      (mkTestImage 90 "a") (mkTestImage 90 "b") rfl (List.Sublist.refl _)⟩

/-- C5: after ranking, the orchestrator keeps at most
`min_images_target = 20` records; with at least 20 collected records the
result is exactly the first 20 of the ranked list (the top 20 by score)
and the summary reports success; with fewer than 20 the whole ranked list
is kept and the summary does not report success. -/
theorem truncate_top_target (l : List ViralImage) :
    (truncateImages (rankImages l)).length ≤ min_images_target ∧
    (min_images_target ≤ l.length →
      truncateImages (rankImages l) = (rankImages l).take min_images_target ∧
      summaryStatus (truncateImages (rankImages l)) = "success") ∧
    (l.length < min_images_target →
      truncateImages (rankImages l) = rankImages l ∧
      summaryStatus (truncateImages (rankImages l)) ≠ "success") := by
  have hmt : min_images_target = 20 := rfl
  have hlen : (rankImages l).length = l.length := List.length_mergeSort l
  by_cases h : min_images_target ≤ l.length
  · have htr : truncateImages (rankImages l) = (rankImages l).take min_images_target := by
      unfold truncateImages
      rw [if_pos (by omega)]
    have hlen20 : (truncateImages (rankImages l)).length = min_images_target := by
      rw [htr, List.length_take]
      omega
    refine ⟨by omega, fun _ => ⟨htr, ?_⟩, fun hlt => absurd h (by omega)⟩
    unfold summaryStatus
    rw [if_neg (by omega), if_pos (by omega)]
  · have htr : truncateImages (rankImages l) = rankImages l := by
      unfold truncateImages
      rw [if_neg (by omega)]
    have hlenlt : (truncateImages (rankImages l)).length < min_images_target := by
      rw [htr]
      omega
    refine ⟨by omega, fun hge => absurd hge h, fun _ => ⟨htr, ?_⟩⟩
    unfold summaryStatus
    by_cases h0 : (truncateImages (rankImages l)).length = 0
    · rw [if_pos h0]
      intro hcontra
      exact absurd hcontra (by decide)
    · rw [if_neg h0, if_neg (by omega)]
      intro hcontra
      exact absurd hcontra (by decide)

/-- C5 witness: a 25-record working set is cut to the top 20 and a
3-record working set is kept whole with a non-success status. -/
theorem truncate_top_target_witness :
    (min_images_target ≤ (List.replicate 25 (mkTestImage 50 "x")).length ∧
      truncateImages (rankImages (List.replicate 25 (mkTestImage 50 "x"))) =
        (rankImages (List.replicate 25 (mkTestImage 50 "x"))).take min_images_target) ∧
    ((List.replicate 3 (mkTestImage 50 "y")).length < min_images_target ∧
      summaryStatus (truncateImages (rankImages (List.replicate 3 (mkTestImage 50 "y")))) ≠
        "success") := by
  have h1 : min_images_target ≤ (List.replicate 25 (mkTestImage 50 "x")).length := by
    simp [min_images_target]
  have h2 : (List.replicate 3 (mkTestImage 50 "y")).length < min_images_target := by
    simp [min_images_target]
  exact ⟨⟨h1, ((truncate_top_target _).2.1 h1).1⟩,
    ⟨h2, ((truncate_top_target _).2.2 h2).2⟩⟩

/-- C6: the fallback collection stage runs exactly when the primary
working set (instagram ++ facebook ++ youtube) has fewer than
`min_images_target = 20` records, in which case the news collector is
invoked with quota 8 and the commercial collector with quota 6 and their
successes are appended; otherwise the working set is the primary set
unchanged. -/
theorem fallback_gate (c : Collectors) :
    ((primaryImages c).length < min_images_target →
      workingSet c = primaryImages c ++ c.news 8 ++ c.commercial 6) ∧
    (min_images_target ≤ (primaryImages c).length →
      workingSet c = primaryImages c) := by
  constructor
  · intro h
    unfold workingSet extract_additional_viral_content
    rw [if_pos h, List.append_assoc]
  · intro h
    unfold workingSet
    rw [if_neg (by omega)]

/-- Collectors whose primary sources underdeliver (empty), with
quota-sensitive fallback collectors. -/
noncomputable def fewCollectors : Collectors :=
  ⟨[], [], [], fun n => List.replicate n (mkTestImage 10 "n"),
    fun n => List.replicate n (mkTestImage 20 "c")⟩

/-- Collectors whose primary sources already meet the minimum target. -/
noncomputable def manyCollectors : Collectors :=
  ⟨List.replicate 20 (mkTestImage 10 "i"), [], [], fun _ => [], fun _ => []⟩

/-- C6 witness: both sides of the fallback gate at concrete collectors. -/
theorem fallback_gate_witness :
    ((primaryImages fewCollectors).length < min_images_target ∧
      workingSet fewCollectors =
        primaryImages fewCollectors ++ fewCollectors.news 8 ++
          fewCollectors.commercial 6) ∧
    (min_images_target ≤ (primaryImages manyCollectors).length ∧
      workingSet manyCollectors = primaryImages manyCollectors) := by
  have h1 : (primaryImages fewCollectors).length < min_images_target := by
    simp [primaryImages, fewCollectors, min_images_target]
  have h2 : min_images_target ≤ (primaryImages manyCollectors).length := by
    simp [primaryImages, manyCollectors, min_images_target]
  exact ⟨⟨h1, (fallback_gate fewCollectors).1 h1⟩,
    ⟨h2, (fallback_gate manyCollectors).2 h2⟩⟩

/-- A fetch oracle whose every response is HTTP 200 with bytes that decode
to a 100×100 image. -/
def smallFetch : String → HttpResponse := fun _ =>
  ⟨200, "image/jpeg", some (100, 100), 999⟩

/-- A concrete YouTube video candidate. -/
def demoVideo : VideoData :=
  ⟨"abc123def45", "https://www.youtube.com/watch?v=abc123def45", "Video viral",
   50000, 2500, 500,
   "https://img.youtube.com/vi/abc123def45/maxresdefault.jpg"⟩

/-- The record the YouTube thumbnail path materializes from `smallFetch`. -/
noncomputable def smallYtImage : Option ViralImage :=
  _download_youtube_thumbnail smallFetch demoVideo 0

/-- A session in which the only successful candidate is the 100×100
YouTube thumbnail. -/
noncomputable def smallYtCollectors : Collectors :=
  ⟨[], [], smallYtImage.toList, fun _ => [], fun _ => []⟩

/-- C3 counterexample: the YouTube thumbnail path materializes a record
from a 100×100 image — no dimension check is applied — and that record
survives to the final result set of the extraction session, so the
width ≥ 200 ∧ height ≥ 200 invariant fails on the YouTube path. -/
theorem youtube_thumbnail_skips_floor :
    Option.map (fun r : ViralImage => r.image_size) smallYtImage =
      some (100, 100) ∧
    (extract_viral_images smallYtCollectors).map
      (fun r : ViralImage => r.image_size) = [(100, 100)] ∧
    ¬ 200 ≤ 100 := by
  have himg : Option.map (fun r : ViralImage => r.image_size) smallYtImage =
      some (100, 100) := by
    simp [smallYtImage, _download_youtube_thumbnail, thumbnailUrls,
      tryThumbnailUrls, smallFetch, mkYoutubeViralImage, _get_image_info]
  refine ⟨himg, ?_, by omega⟩
  obtain ⟨r, hr, hsize⟩ := Option.map_eq_some'.mp himg
  have hws : workingSet smallYtCollectors = [r] := by
    simp [workingSet, primaryImages, smallYtCollectors,
      extract_additional_viral_content, hr, min_images_target]
  simp [extract_viral_images, hws, rankImages, truncateImages,
    min_images_target, hsize]

/-- C3 (amended): every record materialized through `_download_image`
(the Instagram, Facebook, news and commercial collection paths) satisfies
the 200×200 pixel floor — a path is returned only when the stored bytes
decode to dimensions with width ≥ 200 and height ≥ 200.  The YouTube
thumbnail path does not perform this check (see the counterexample). -/
theorem download_image_enforces_floor (resp : HttpResponse)
    (platform : String) (index ts : Nat)
    (hpath : (_download_image resp platform index ts).returnedPath ≠ none) :
    ∃ w h : Nat, resp.decodedSize = some (w, h) ∧ 200 ≤ w ∧ 200 ≤ h := by
  unfold _download_image at hpath
  by_cases h200 : resp.status = 200
  · rw [if_pos h200] at hpath
    match hd : resp.decodedSize with
    | some wh =>
      rw [hd] at hpath
      simp only at hpath
      by_cases hdim : 200 ≤ wh.1 ∧ 200 ≤ wh.2
      · exact ⟨wh.1, wh.2, by simp [hd], hdim.1, hdim.2⟩
      · rw [if_neg hdim] at hpath
        exact absurd rfl hpath
    | none =>
      rw [hd] at hpath
      exact absurd rfl hpath
  · rw [if_neg h200] at hpath
    exact absurd rfl hpath

/-- A fetched response carrying a valid 640×480 image. -/
def bigResp : HttpResponse := ⟨200, "image/png", some (640, 480), 12345⟩

/-- C3 witness: a 640×480 download is accepted, and
`download_image_enforces_floor` recovers its dimensions. -/
theorem download_image_enforces_floor_witness :
    (_download_image bigResp "instagram" 1 2).returnedPath ≠ none ∧
    ∃ w h : Nat, bigResp.decodedSize = some (w, h) ∧ 200 ≤ w ∧ 200 ≤ h :=
  ⟨by decide, download_image_enforces_floor bigResp "instagram" 1 2 (by decide)⟩

/-- C8: when the downloader fetches bytes whose decoded dimensions are
below the 200×200 floor, or bytes that do not decode as an image, it
returns absence and leaves no stored file behind. -/
theorem download_rejects_bad_image (resp : HttpResponse)
    (platform : String) (index ts : Nat)
    (hstatus : resp.status = 200)
    (hbad : resp.decodedSize = none ∨
      ∃ w h : Nat, resp.decodedSize = some (w, h) ∧ (w < 200 ∨ h < 200)) :
    _download_image resp platform index ts = ⟨none, false⟩ := by
  unfold _download_image
  rw [if_pos hstatus]
  rcases hbad with hnone | ⟨w, h, hsome, hsmall⟩
  · rw [hnone]
  · rw [hsome]
    simp only
    rw [if_neg (by omega)]

/-- A fetched response carrying a 100×100 image. -/
def smallResp : HttpResponse := ⟨200, "image/jpeg", some (100, 100), 4321⟩

/-- C8 witness: the 100×100 download is discarded with no file left. -/
theorem download_rejects_bad_image_witness :
    smallResp.status = 200 ∧
    (smallResp.decodedSize = none ∨
      ∃ w h : Nat, smallResp.decodedSize = some (w, h) ∧
        (w < 200 ∨ h < 200)) ∧
    _download_image smallResp "news" 0 0 = ⟨none, false⟩ :=
  ⟨rfl, Or.inr ⟨100, 100, rfl, Or.inl (by norm_num)⟩,
   download_rejects_bad_image smallResp "news" 0 0 rfl
     (Or.inr ⟨100, 100, rfl, Or.inl (by norm_num)⟩)⟩

/-- The URL-validity condition exactly as the claim states it: reject
empty or short URLs and URLs containing a blocked substring
(case-insensitively), otherwise accept exactly the URLs containing an
image extension or a known image-hosting marker. -/
def urlValidSpec (url : String) : Prop :=
  ¬ (url = "" ∨ url.length < 10) ∧
  (∀ p ∈ invalid_patterns, strContains url.toLower p = false) ∧
  (∃ p ∈ valid_patterns, strContains url.toLower p = true)

/-- C10: the URL validity filter returns `true` exactly when the URL is
at least 10 characters, contains none of the blocked substrings
(`data:image`, `base64`, `svg`, `icon`, `logo`, `avatar`, `profile`,
matched case-insensitively) and contains one of `.jpg`, `.jpeg`, `.png`,
`.webp`, `scontent`, `fbcdn`, `instagram`, `youtube`. -/
theorem is_valid_image_url_spec (url : String) :
    _is_valid_image_url url = true ↔ urlValidSpec url := by
  unfold _is_valid_image_url urlValidSpec
  by_cases hshort : url = "" ∨ url.length < 10
  · rw [if_pos hshort]
    simp [hshort]
  · rw [if_neg hshort]
    by_cases hinv : (invalid_patterns.any fun p => strContains url.toLower p) = true
    · rw [if_pos hinv]
      rw [List.any_eq_true] at hinv
      obtain ⟨p, hp, hc⟩ := hinv
      simp only [Bool.false_eq_true, false_iff, not_and]
      intro _ hall
      rw [hall p hp] at hc
      exact absurd hc (by decide)
    · rw [if_neg hinv]
      rw [List.any_eq_true]
      constructor
      · intro hvalid
        refine ⟨hshort, fun p hp => ?_, hvalid⟩
        cases hcv : strContains url.toLower p with
        | false => rfl
        | true => exact absurd (List.any_eq_true.mpr ⟨p, hp, hcv⟩) hinv
      · rintro ⟨-, -, hvalid⟩
        exact hvalid

end ViralImageExtractor
